import Mathlib

/-!
Verification development for the chortservice repository (TypeScript frontend
for a capacity-aware server/domain assignment system). The definitions below
are shallow embeddings of the source functions; machine-level JS behaviour
(string trim/split, number division, Set add/delete) is modelled explicitly.
-/

namespace Chort

/-! ## JavaScript string primitives

Models of the JS string operations used by the bulk-import handlers:
text.split with a newline separator and String.prototype.trim. Both are
written structurally over the character list so they evaluate by kernel
reduction. -/

/-- Splitting a character list at newline characters, the semantics of the
JS call text.split with separator a newline: empty segments are kept. -/
def splitNl : List Char → List (List Char)
| [] => [[]]
| c :: cs =>
  if c = '\n' then [] :: splitNl cs
  else
    match splitNl cs with
    | [] => [[c]]
    | l :: ls => (c :: l) :: ls

/-- JS text.split on a newline separator, as a list of line strings. -/
def jsSplitLines (s : String) : List String :=
  (splitNl s.toList).map (fun l => String.mk l)

/-- JS String.prototype.trim: drop leading and trailing whitespace. -/
def jsTrim (s : String) : String :=
  String.mk (((s.toList.dropWhile Char.isWhitespace).reverse.dropWhile
    Char.isWhitespace).reverse)

/-! ## JavaScript numbers for the capacity bars

A JS floating-point number is modelled as either a finite rational or the
single marker nan covering every non-finite result (NaN or an infinity);
division by zero is the only producer of the marker here. -/

/-- JS number: a finite rational value or a non-finite result (NaN/Infinity). -/
inductive JsNum where
| num (q : ℚ)
| nan
deriving DecidableEq

/-- JS division: zero divisor yields a non-finite result (0/0 is NaN, x/0 is
an infinity); both are collapsed into the nan marker. -/
def jsDiv (a b : ℚ) : JsNum :=
  if b = 0 then JsNum.nan else JsNum.num (a / b)

/-- Multiplying a JS number by a finite constant; non-finite stays non-finite. -/
def jsMulConst (x : JsNum) (c : ℚ) : JsNum :=
  match x with
  | JsNum.num q => JsNum.num (q * c)
  | JsNum.nan => JsNum.nan

/-! ## Capacity model -/

/-- Server capacity tier. The spec names the three tiers low, medium and high;
the concrete enumerated strings in the code are given by value below. -/
inductive CapacityMode where
| low
| medium
| high
deriving DecidableEq

/-- Concrete enumerated string of each capacity mode, as carried by the
CAPACITY_OPTIONS values in the servers pages. -/
def CapacityMode.value : CapacityMode → String
| CapacityMode.low => "1:5"
| CapacityMode.medium => "1:7"
| CapacityMode.high => "1:10"

/-- Modelled from the spec: slotsFor, the fixed backend table mapping each
capacity mode to its maximum slot count (the table itself lives in the
backend, which is not under src/); low maps to 5, medium to 7, high to 10. -/
def slotsFor : CapacityMode → Nat
| CapacityMode.low => 5
| CapacityMode.medium => 7
| CapacityMode.high => 10

/-- One entry of the CAPACITY_OPTIONS constant of the servers pages. -/
structure CapacityOption where
  value : String
  label : String
deriving DecidableEq

/-- The CAPACITY_OPTIONS constant of the servers pages (both variants define
the identical list). -/
def CAPACITY_OPTIONS : List CapacityOption :=
  [⟨"1:5", "1:5 (5 domains max)"⟩,
   ⟨"1:7", "1:7 (7 domains max)"⟩,
   ⟨"1:10", "1:10 (10 domains max)"⟩]

/-! ## Capacity utilization displays -/

/-- Width of the capacity bar in the servers-page capacity column:
(server.current_domains / server.max_domains) * 100, with no guard on a zero
denominator. -/
def serversCapacityBarWidth (current maxDomains : ℚ) : JsNum :=
  jsMulConst (jsDiv current maxDomains) 100

/-- Width of the Dashboard capacity-by-mode bar:
(data.used / Math.max(data.capacity, 1)) * 100. -/
def dashboardModeBarWidth (used capacity : ℚ) : JsNum :=
  jsMulConst (jsDiv used (max capacity 1)) 100

/-- Modelled from the spec: getCapacityReport utilization percent, computed in
the backend (not under src/): current_domains / max_domains * 100, defined as
0 when max_domains is 0. -/
def reportUtilizationPercent (current maxDomains : ℚ) : ℚ :=
  if maxDomains = 0 then 0 else current / maxDomains * 100

/-! ## fetchApi error handling (lib/api.ts, identical in both frontends) -/

/-- Parsed JSON error body: the optional detail field. -/
structure JsonBody where
  detail : Option String
deriving DecidableEq

/-- The parts of an HTTP response that fetchApi inspects: the ok flag, the
status code, and the result of response.json() (none when parsing rejects). -/
structure HttpResponse where
  ok : Bool
  status : Nat
  json : Option JsonBody
deriving DecidableEq

/-- Result of a fetchApi call: a success value (none models the undefined
returned for a 204 response) or a thrown ApiError carrying status and
message. -/
inductive FetchResult where
| success (body : Option JsonBody)
| failure (status : Nat) (message : String)
deriving DecidableEq

/-- JS truthy-or on an optional string: the empty string and a missing value
are falsy, so the default is used for both. -/
def jsOrDefault (s : Option String) (d : String) : String :=
  match s with
  | some v => if v = "" then d else v
  | none => d

/-- The fetchApi control flow: a non-ok response throws ApiError with the
response status and a message taken from the parsed error detail (the catch
substitutes a body with detail "Unknown error" when parsing rejects, and a
falsy detail falls back to "Request failed"); an ok 204 response returns
undefined; any other ok response returns the parsed body. -/
def fetchApi (resp : HttpResponse) : FetchResult :=
  if resp.ok = false then
    let error : JsonBody :=
      match resp.json with
      | some body => body
      | none => ⟨some "Unknown error"⟩
    FetchResult.failure resp.status (jsOrDefault error.detail "Request failed")
  else if resp.status = 204 then FetchResult.success none
  else FetchResult.success resp.json

/-! ## WebSocketClient (lib/api.ts, websocket section)

The client state tracked by the reconnect logic: the readyState of the
current socket (none when this.ws is null), the reconnect attempt counter,
the isConnecting flag and the remembered user. The message-handler set is
modelled separately below. -/

/-- Browser WebSocket readyState values. -/
inductive ReadyState where
| connecting
| opened
| closing
| closed
deriving DecidableEq

/-- Fields of WebSocketClient that the connect/reconnect logic reads and
writes. -/
structure WSClientState where
  ws : Option ReadyState
  reconnectAttempts : Nat
  isConnecting : Bool
  user : String
deriving DecidableEq

/-- The maxReconnectAttempts field initialiser. -/
def maxReconnectAttempts : Nat := 10

/-- The reconnectDelay field initialiser (milliseconds). -/
def reconnectDelay : Nat := 1000

/-- The connect method: a no-op returning false (no socket created) when the
current socket is OPEN or a connection attempt is in progress; otherwise it
sets isConnecting, stores the user, and creates a new socket (true). -/
def connect (s : WSClientState) (user : String) : WSClientState × Bool :=
  if s.ws = some ReadyState.opened ∨ s.isConnecting = true then (s, false)
  else ({ s with isConnecting := true, user := user,
                 ws := some ReadyState.connecting }, true)

/-- The attemptReconnect method: once the attempt counter has reached
maxReconnectAttempts nothing is scheduled; otherwise a reconnect is scheduled
after reconnectDelay * 2 ^ attempts milliseconds and the counter is
incremented. The second component is the scheduled delay, none when no
further reconnect is attempted. -/
def attemptReconnect (s : WSClientState) : WSClientState × Option Nat :=
  if maxReconnectAttempts ≤ s.reconnectAttempts then (s, none)
  else ({ s with reconnectAttempts := s.reconnectAttempts + 1 },
        some (reconnectDelay * 2 ^ s.reconnectAttempts))

/-- The onopen handler: clears isConnecting and resets the reconnect attempt
counter to 0 (the socket is now open). -/
def handleOpen (s : WSClientState) : WSClientState :=
  { s with isConnecting := false, reconnectAttempts := 0,
           ws := some ReadyState.opened }

/-! ## Message-handler set (subscribe/unsubscribe)

The messageHandlers field is a JS Set of handler functions; handlers are
identified by opaque ids here. Set.add is a no-op on a present element and
appends an absent one; Set.delete removes the element. -/

/-- JS Set.add on the handler set. -/
def setAdd (handlers : List Nat) (h : Nat) : List Nat :=
  if h ∈ handlers then handlers else handlers ++ [h]

/-- JS Set.delete on the handler set. -/
def setDelete (handlers : List Nat) (h : Nat) : List Nat :=
  handlers.filter (fun g => g ≠ h)

/-- The subscribe method: adds the handler to the set and returns the new set
together with the unsubscribe closure, which deletes that same handler from
whatever the set holds when it is called. -/
def subscribe (handlers : List Nat) (h : Nat) : List Nat × (List Nat → List Nat) :=
  (setAdd handlers h, fun current => setDelete current h)

/-! ## Message dispatch and the useRealtimeUpdates channel filter -/

/-- The data part of a WebSocket envelope: the action plus the remaining
payload fields (kept opaque). -/
structure WSData where
  action : String
  payload : String
deriving DecidableEq

/-- A WebSocket message envelope: channel and data. -/
structure WSMessage where
  channel : String
  data : WSData
deriving DecidableEq

/-- The four logical channels of the notification bus. -/
def chortChannels : List String := ["servers", "domains", "assignments", "locks"]

/-- The onmessage dispatch: every handler currently in the set is invoked
with the parsed message; the result lists the (handler, message)
invocations. -/
def dispatchInvocations (handlers : List Nat) (m : WSMessage) : List (Nat × WSMessage) :=
  handlers.map (fun h => (h, m))

/-- The handler that useRealtimeUpdates subscribes for a channel: the update
callback is invoked with (message.data.action, message.data) exactly when
message.channel equals the subscribed channel; the result is the invocation
performed, none when the callback is not called. -/
def realtimeUpdateHandler (channel : String) (m : WSMessage) : Option (String × WSData) :=
  if m.channel = channel then some (m.data.action, m.data) else none

/-! ## Pages reacting to change events

Every page passes a zero-parameter reload closure (loadData, loadServers,
loadDomains) to useRealtimeUpdates, so the (action, data) arguments of the
update callback are discarded and the new view state is computed from the
re-read API responses alone. -/

/-- The API responses the Dashboard loadData callback reads. -/
structure DashboardApi where
  stats : String
  servers : List String
  domains : List String
deriving DecidableEq

/-- The Dashboard view state written by loadData. -/
structure DashboardView where
  stats : Option String
  recentServers : List String
  recentDomains : List String
  loading : Bool
deriving DecidableEq

/-- The Dashboard loadData callback: overwrites stats, recentServers and
recentDomains from the three API responses and clears the loading flag. The
JS function takes no parameters. -/
def loadData (api : DashboardApi) (v : DashboardView) : DashboardView :=
  { v with stats := some api.stats, recentServers := api.servers,
           recentDomains := api.domains, loading := false }

/-- A change event arriving at the Dashboard subscription for a channel: the
useRealtimeUpdates handler filters on the channel, and a matching event
invokes loadData — which, taking no parameters, discards the action and
payload the hook passes along. -/
def dashboardHandleEvent (api : DashboardApi) (channel : String)
    (v : DashboardView) (m : WSMessage) : DashboardView :=
  match realtimeUpdateHandler channel m with
  | some _ => loadData api v
  | none => v

/-- The API response the ServersPage loadServers callback reads. -/
structure ServersApi where
  servers : List String
  total : Nat
deriving DecidableEq

/-- The ServersPage view state written by loadServers. -/
structure ServersView where
  servers : List String
  total : Nat
  loading : Bool
deriving DecidableEq

/-- The ServersPage loadServers callback: overwrites the server list and
total from the list response and clears the loading flag. The JS function
takes no parameters. -/
def loadServers (api : ServersApi) (v : ServersView) : ServersView :=
  { v with servers := api.servers, total := api.total, loading := false }

/-- A change event arriving at the ServersPage subscription: a matching event
invokes loadServers, which discards the action and payload. -/
def serversHandleEvent (api : ServersApi) (channel : String)
    (v : ServersView) (m : WSMessage) : ServersView :=
  match realtimeUpdateHandler channel m with
  | some _ => loadServers api v
  | none => v

/-! ## Bulk import (servers and domains) -/

/-- The line list built by handleBulkImport on the servers page:
bulkText.split on newline, each line trimmed, empty lines dropped. -/
def bulkImportServers (bulkText : String) : List String :=
  ((jsSplitLines bulkText).map jsTrim).filter (fun line => 0 < line.length)

/-- The handleBulkImport control flow on the servers page: an input with no
non-empty line sets the form error and returns without issuing a request;
otherwise the request carries exactly the computed line list. -/
def handleBulkImport (bulkText : String) : Except String (List String) :=
  let servers := bulkImportServers bulkText
  if servers.length = 0 then Except.error "Please enter at least one server"
  else Except.ok servers

/-- The line list built by handleBulkCreate on the domains page. -/
def bulkCreateDomains (bulkDomains : String) : List String :=
  ((jsSplitLines bulkDomains).map jsTrim).filter (fun d => 0 < d.length)

/-- The handleBulkCreate control flow on the domains page. -/
def handleBulkCreate (bulkDomains : String) : Except String (List String) :=
  let domainsList := bulkCreateDomains bulkDomains
  if domainsList.length = 0 then Except.error "Please enter at least one domain"
  else Except.ok domainsList

/-- Restatement of the claimed submitted list, following the words of the
spec: the sequence of non-empty, whitespace-trimmed lines of the input, in
the original order, one entry per line. -/
def specNonEmptyTrimmedLines : List String → List String
| [] => []
| line :: rest =>
  if jsTrim line = "" then specNonEmptyTrimmedLines rest
  else jsTrim line :: specNonEmptyTrimmedLines rest

/-! ## Assignment ledger capacity (backend) -/

/-- Modelled from the spec: the capacity counters of one server row as seen
by the backend assign operation (the backend itself is not under src/);
current_domains and max_domains with the invariant current ≤ max. -/
structure SrvCap where
  current : Nat
  maxDomains : Nat
deriving DecidableEq

/-- Modelled from the spec: outcome of one assign call against a server. -/
inductive AssignOutcome where
| success
| serverAtCapacity
deriving DecidableEq

/-- Modelled from the spec: one assign call as a single atomic
read-check-write transaction on the server row — it reads current_domains,
checks it against max_domains, and on success increments the counter;
at capacity it fails with ServerAtCapacity and leaves the row unchanged. -/
def assignStep (s : SrvCap) : SrvCap × AssignOutcome :=
  if s.current < s.maxDomains then
    ({ s with current := s.current + 1 }, AssignOutcome.success)
  else (s, AssignOutcome.serverAtCapacity)

/-- Modelled from the spec: N concurrent assign calls against one server.
Because each call runs inside a transaction holding a row-level write lock
for its whole read-check-write sequence, every concurrent execution is
equivalent to some serial order of the N identical calls; this runs them in
sequence and returns the final row plus the success and failure counts. -/
def runAssigns : Nat → SrvCap → SrvCap × Nat × Nat
| 0, s => (s, 0, 0)
| Nat.succ n, s =>
  match assignStep s with
  | (s', AssignOutcome.success) =>
    let r := runAssigns n s'
    (r.1, r.2.1 + 1, r.2.2)
  | (s', AssignOutcome.serverAtCapacity) =>
    let r := runAssigns n s'
    (r.1, r.2.1, r.2.2 + 1)

/-! ## Theorems -/

/-- C2: the server capacity mode is one of exactly three enumerated values
(the spec names them low, medium and high; their concrete enumerated strings
in the code are "1:5", "1:7" and "1:10"), slotsFor maps them to the fixed
slot counts 5, 7 and 10 respectively, and every capacity-mode choice the UI
offers (CAPACITY_OPTIONS) carries one of these three modes paired with its
matching maximum domain count in the label. -/
theorem capacity_modes_enumeration :
    (∀ m : CapacityMode, m = CapacityMode.low ∨ m = CapacityMode.medium ∨
      m = CapacityMode.high) ∧
    (CapacityMode.low ≠ CapacityMode.medium ∧
      CapacityMode.medium ≠ CapacityMode.high ∧
      CapacityMode.low ≠ CapacityMode.high) ∧
    (slotsFor CapacityMode.low = 5 ∧ slotsFor CapacityMode.medium = 7 ∧
      slotsFor CapacityMode.high = 10) ∧
    CAPACITY_OPTIONS =
      [CapacityMode.low, CapacityMode.medium, CapacityMode.high].map (fun m =>
        ⟨m.value, m.value ++ " (" ++ toString (slotsFor m) ++ " domains max)"⟩) := by
  refine ⟨fun m => ?_, by decide, by decide, by decide⟩
  cases m
  · exact Or.inl rfl
  · exact Or.inr (Or.inl rfl)
  · exact Or.inr (Or.inr rfl)

/-- C3: the n-th consecutive reconnect attempt (n starting at 1, so the
counter reads n - 1 when attemptReconnect runs) is scheduled after
reconnectDelay * 2 ^ (n - 1) milliseconds with reconnectDelay = 1000, each
delay doubling the previous one; once the counter has reached
maxReconnectAttempts = 10 no further reconnect is scheduled and the state is
unchanged; a successful connection open resets the counter to 0. -/
theorem reconnect_backoff_spec :
    (∀ (s : WSClientState) (n : Nat), 1 ≤ n → n ≤ maxReconnectAttempts →
      s.reconnectAttempts = n - 1 →
      attemptReconnect s =
        ({ s with reconnectAttempts := n }, some (reconnectDelay * 2 ^ (n - 1)))) ∧
    (∀ s : WSClientState, maxReconnectAttempts ≤ s.reconnectAttempts →
      attemptReconnect s = (s, none)) ∧
    (∀ s : WSClientState, (handleOpen s).reconnectAttempts = 0) ∧
    reconnectDelay = 1000 ∧ maxReconnectAttempts = 10 := by
  refine ⟨fun s n h1 h10 hc => ?_, fun s hs => ?_, fun s => rfl, rfl, rfl⟩
  · have hlt : ¬ maxReconnectAttempts ≤ n - 1 := by
      simp only [maxReconnectAttempts] at h10 ⊢
      omega
    simp only [attemptReconnect, hc, if_neg hlt]
    have hn : n - 1 + 1 = n := by omega
    rw [hn]
  · simp only [attemptReconnect, if_pos hs]

/-- Witness for reconnect_backoff_spec: the third consecutive attempt is
delayed 1000 * 2 ^ 2 = 4000 ms, and a client that has already made 10
attempts schedules nothing. -/
theorem reconnect_backoff_spec_witness :
    attemptReconnect ⟨none, 2, false, "anonymous"⟩ =
      (⟨none, 3, false, "anonymous"⟩, some 4000) ∧
    attemptReconnect ⟨none, 10, false, "anonymous"⟩ =
      (⟨none, 10, false, "anonymous"⟩, none) := by
  have h1 := reconnect_backoff_spec.1 ⟨none, 2, false, "anonymous"⟩ 3
    (by decide) (by decide) rfl
  have h2 := reconnect_backoff_spec.2.1 ⟨none, 10, false, "anonymous"⟩ (by decide)
  exact ⟨h1, h2⟩

/-- C10: calling connect while the socket is already open or a connection
attempt is in progress is a no-op — the state is returned unmodified and no
new socket object is created (the boolean is false). -/
theorem connect_noop_when_active (s : WSClientState) (user : String)
    (h : s.ws = some ReadyState.opened ∨ s.isConnecting = true) :
    connect s user = (s, false) := by
  rw [connect, if_pos h]

/-- Witness for connect_noop_when_active: a client with an open socket, and a
client mid-connection, are both left untouched by connect. -/
theorem connect_noop_when_active_witness :
    connect ⟨some ReadyState.opened, 0, false, "anonymous"⟩ "alice" =
      (⟨some ReadyState.opened, 0, false, "anonymous"⟩, false) ∧
    connect ⟨some ReadyState.connecting, 0, true, "anonymous"⟩ "bob" =
      (⟨some ReadyState.connecting, 0, true, "anonymous"⟩, false) :=
  ⟨connect_noop_when_active _ "alice" (Or.inl rfl),
   connect_noop_when_active _ "bob" (Or.inr rfl)⟩

/-- C4: for every message and every subscription registered through
useRealtimeUpdates on one of the four logical channels, the update callback
is invoked exactly when the message channel equals the subscribed channel,
and a message that triggers the callback of one channel never triggers the
callback subscribed to a different channel. -/
theorem realtime_channel_filter :
    (∀ (c : String) (m : WSMessage), c ∈ chortChannels →
      ((realtimeUpdateHandler c m).isSome ↔ m.channel = c)) ∧
    (∀ (c c' : String) (m : WSMessage), c ≠ c' →
      (realtimeUpdateHandler c m).isSome → realtimeUpdateHandler c' m = none) := by
  constructor
  · intro c m _
    by_cases h : m.channel = c
    · simp [realtimeUpdateHandler, h]
    · simp [realtimeUpdateHandler, h]
  · intro c c' m hne hsome
    have hc : m.channel = c := by
      by_contra h
      rw [realtimeUpdateHandler, if_neg h] at hsome
      simp at hsome
    rw [realtimeUpdateHandler, if_neg (hc ▸ hne)]

/-- Witness for realtime_channel_filter: a servers-channel message triggers
the servers subscription and not the domains subscription. -/
theorem realtime_channel_filter_witness :
    ((realtimeUpdateHandler "servers" ⟨"servers", ⟨"updated", "id:1"⟩⟩).isSome ↔
      ("servers" : String) = "servers") ∧
    realtimeUpdateHandler "domains" ⟨"servers", ⟨"updated", "id:1"⟩⟩ = none :=
  ⟨realtime_channel_filter.1 "servers" ⟨"servers", ⟨"updated", "id:1"⟩⟩ (by decide),
   realtime_channel_filter.2 "servers" "domains" ⟨"servers", ⟨"updated", "id:1"⟩⟩
     (by decide) (by decide)⟩

/-- C1 counterexample: the servers-page capacity column divides
current_domains by max_domains with no zero guard, so for a server with
current_domains = 0 and max_domains = 0 the bar width is a non-finite JS
number (0/0 is NaN), not the value 0 the claim asserts. -/
theorem capacity_bar_divzero_counterexample :
    serversCapacityBarWidth 0 0 = JsNum.nan ∧
    serversCapacityBarWidth 0 0 ≠ JsNum.num 0 := by
  exact ⟨by decide, by decide⟩

/-- C1 amended: the spec-modelled capacity report defines utilization as 0
when max_domains is 0 and as current / max * 100 otherwise, never dividing
by zero; the Dashboard capacity-by-mode bar divides by max(capacity, 1) and
so never produces a non-finite width, and reads 0 at used = 0, capacity = 0;
the servers-page capacity column computes current / max * 100 unguarded, so
it avoids division by zero exactly for servers with max_domains nonzero —
which includes every server whose max_domains comes from a capacity mode,
since slotsFor is never 0. -/
theorem capacity_utilization_guarded :
    (∀ current : ℚ, reportUtilizationPercent current 0 = 0) ∧
    (∀ current maxDomains : ℚ, maxDomains ≠ 0 →
      reportUtilizationPercent current maxDomains = current / maxDomains * 100) ∧
    (∀ used capacity : ℚ, dashboardModeBarWidth used capacity ≠ JsNum.nan) ∧
    dashboardModeBarWidth 0 0 = JsNum.num 0 ∧
    (∀ current maxDomains : ℚ, maxDomains ≠ 0 →
      serversCapacityBarWidth current maxDomains =
        JsNum.num (current / maxDomains * 100)) ∧
    (∀ (current : ℚ) (m : CapacityMode),
      serversCapacityBarWidth current (slotsFor m) =
        JsNum.num (current / (slotsFor m) * 100)) := by
  have hmax : ∀ capacity : ℚ, max capacity 1 ≠ 0 := by
    intro capacity h
    have h1 : (1 : ℚ) ≤ max capacity 1 := le_max_right capacity 1
    rw [h] at h1
    exact absurd h1 (by norm_num)
  refine ⟨fun current => by simp [reportUtilizationPercent],
    fun current maxDomains h => by simp [reportUtilizationPercent, h],
    fun used capacity => ?_, ?_,
    fun current maxDomains h => by
      simp [serversCapacityBarWidth, jsDiv, jsMulConst, h],
    fun current m => ?_⟩
  · simp [dashboardModeBarWidth, jsDiv, jsMulConst, hmax capacity]
  · have h1 : (max (0 : ℚ) 1) = 1 := max_eq_right (by norm_num)
    simp [dashboardModeBarWidth, jsDiv, jsMulConst, h1]
  · have hs : ((slotsFor m : ℚ)) ≠ 0 := by
      cases m <;> simp [slotsFor]
    simp [serversCapacityBarWidth, jsDiv, jsMulConst, hs]

/-- Witness for capacity_utilization_guarded: the report is 0 at max 0, the
report and the servers bar agree at 3/5, and a low-mode server (5 slots)
gets a finite 60 percent bar. -/
theorem capacity_utilization_guarded_witness :
    reportUtilizationPercent 3 0 = 0 ∧
    reportUtilizationPercent 3 5 = 3 / 5 * 100 ∧
    serversCapacityBarWidth 3 5 = JsNum.num (3 / 5 * 100) ∧
    serversCapacityBarWidth 3 (slotsFor CapacityMode.low) =
      JsNum.num (3 / (slotsFor CapacityMode.low : ℚ) * 100) :=
  ⟨capacity_utilization_guarded.1 3,
   capacity_utilization_guarded.2.1 3 5 (by norm_num),
   capacity_utilization_guarded.2.2.2.2.1 3 5 (by norm_num),
   capacity_utilization_guarded.2.2.2.2.2 3 CapacityMode.low⟩

/-- C6: a fetchApi call on a non-ok response never returns a success value;
it raises an ApiError carrying the response status, whose message is the
server-supplied detail when one is present and non-empty, and "Unknown
error" when the error body is unparseable; an ok 204 response returns
undefined without reading a body. -/
theorem fetchApi_error_spec :
    (∀ (resp : HttpResponse) (body : Option JsonBody), resp.ok = false →
      fetchApi resp ≠ FetchResult.success body) ∧
    (∀ resp : HttpResponse, resp.ok = false →
      ∃ msg, fetchApi resp = FetchResult.failure resp.status msg) ∧
    (∀ (resp : HttpResponse) (d : String), resp.ok = false →
      resp.json = some ⟨some d⟩ → d ≠ "" →
      fetchApi resp = FetchResult.failure resp.status d) ∧
    (∀ resp : HttpResponse, resp.ok = false → resp.json = none →
      fetchApi resp = FetchResult.failure resp.status "Unknown error") ∧
    (∀ resp : HttpResponse, resp.ok = true → resp.status = 204 →
      fetchApi resp = FetchResult.success none) := by
  refine ⟨fun resp body hok => ?_, fun resp hok => ?_,
    fun resp d hok hjson hd => ?_, fun resp hok hjson => ?_,
    fun resp hok h204 => ?_⟩
  · simp only [fetchApi]
    rw [if_pos hok]
    intro h
    exact FetchResult.noConfusion h
  · refine ⟨jsOrDefault
      (match resp.json with
        | some body => body
        | none => ⟨some "Unknown error"⟩).detail "Request failed", ?_⟩
    simp only [fetchApi]
    rw [if_pos hok]
  · simp only [fetchApi, hjson]
    rw [if_pos hok]
    simp [jsOrDefault, hd]
  · have hue : ("Unknown error" : String) ≠ "" := by decide
    simp only [fetchApi, hjson]
    rw [if_pos hok]
    simp [jsOrDefault, hue]
  · simp only [fetchApi, hok, h204]
    norm_num

/-- Witness for fetchApi_error_spec: a 404 with detail "Not found" raises
that detail, a 500 with an unparseable body raises "Unknown error", an ok
204 returns undefined, and the 404 is not reported as success. -/
theorem fetchApi_error_spec_witness :
    fetchApi ⟨false, 404, some ⟨some "Not found"⟩⟩ =
      FetchResult.failure 404 "Not found" ∧
    fetchApi ⟨false, 500, none⟩ = FetchResult.failure 500 "Unknown error" ∧
    fetchApi ⟨true, 204, none⟩ = FetchResult.success none ∧
    fetchApi ⟨false, 404, some ⟨some "Not found"⟩⟩ ≠ FetchResult.success none :=
  ⟨fetchApi_error_spec.2.2.1 ⟨false, 404, some ⟨some "Not found"⟩⟩ "Not found"
      rfl rfl (by decide),
   fetchApi_error_spec.2.2.2.1 ⟨false, 500, none⟩ rfl rfl,
   fetchApi_error_spec.2.2.2.2 ⟨true, 204, none⟩ rfl rfl,
   fetchApi_error_spec.1 ⟨false, 404, some ⟨some "Not found"⟩⟩ none rfl⟩

/-- C7 counterexample: subscribing a handler that is already in the set and
then calling the returned unsubscribe does not leave the handler set
unchanged — JS Set.add is a no-op on a present element, so the delete
removes the pre-existing registration and the round trip shrinks the set. -/
theorem subscribe_roundtrip_counterexample :
    (subscribe [0] 0).2 (subscribe [0] 0).1 ≠ [0] := by decide

/-- C7 amended: subscribe adds the handler to the set and returns an
unsubscribe closure removing exactly that handler (other handlers are
unaffected); when the handler was not already subscribed, subscribe
immediately followed by its returned unsubscribe restores the set exactly;
after the unsubscribe the handler is out of the set, so no later message
dispatch invokes it. -/
theorem subscribe_unsubscribe_spec :
    (∀ (handlers : List Nat) (h : Nat), h ∉ handlers →
      (subscribe handlers h).2 (subscribe handlers h).1 = handlers) ∧
    (∀ (handlers : List Nat) (h : Nat), h ∈ (subscribe handlers h).1) ∧
    (∀ (handlers : List Nat) (h g : Nat), g ≠ h →
      (g ∈ setDelete handlers h ↔ g ∈ handlers)) ∧
    (∀ (handlers : List Nat) (h : Nat), h ∉ setDelete handlers h) ∧
    (∀ (handlers : List Nat) (h : Nat) (m : WSMessage),
      (h, m) ∉ dispatchInvocations (setDelete handlers h) m) := by
  refine ⟨fun handlers h hmem => ?_, fun handlers h => ?_,
    fun handlers h g hg => ?_, fun handlers h => ?_, fun handlers h m => ?_⟩
  · simp only [subscribe, setAdd, if_neg hmem, setDelete, List.filter_append]
    rw [List.filter_eq_self.mpr, List.filter_cons]
    · simp
    · intro a ha
      simp only [decide_eq_true_eq]
      intro hah
      exact hmem (hah ▸ ha)
  · simp only [subscribe, setAdd]
    by_cases hmem : h ∈ handlers
    · simp [hmem]
    · simp [hmem]
  · simp [setDelete, List.mem_filter, hg]
  · simp [setDelete, List.mem_filter]
  · intro hcontra
    simp only [dispatchInvocations, List.mem_map, Prod.mk.injEq] at hcontra
    obtain ⟨g, hgmem, hgh, -⟩ := hcontra
    rw [hgh] at hgmem
    simp [setDelete, List.mem_filter] at hgmem

/-- Witness for subscribe_unsubscribe_spec: subscribing the fresh handler 0
to the set containing 1 and 2 and immediately unsubscribing restores the
set, and deleting handler 0 leaves handler 1 subscribed. -/
theorem subscribe_unsubscribe_spec_witness :
    (subscribe [1, 2] 0).2 (subscribe [1, 2] 0).1 = [1, 2] ∧
    (1 ∈ setDelete [1, 0] 0 ↔ 1 ∈ ([1, 0] : List Nat)) :=
  ⟨subscribe_unsubscribe_spec.1 [1, 2] 0 (by decide),
   subscribe_unsubscribe_spec.2.2.1 [1, 0] 0 1 (by decide)⟩

/-- Helper: a string has positive length exactly when it is not the empty
string. -/
theorem string_length_pos_iff (s : String) : 0 < s.length ↔ s ≠ "" := by
  have hd : s.length = s.data.length := rfl
  rw [hd, List.length_pos]
  constructor
  · intro h hs
    subst hs
    exact h rfl
  · intro h hd'
    exact h (String.ext hd')

/-- Helper: trimming every line and dropping the empty results computes the
spec-side list of non-empty trimmed lines, in order. -/
theorem map_filter_eq_spec (ls : List String) :
    ((ls.map jsTrim).filter (fun l => 0 < l.length)) = specNonEmptyTrimmedLines ls := by
  induction ls with
  | nil => rfl
  | cons l ls ih =>
    by_cases h : jsTrim l = ""
    · have hlen : ¬ (0 < (jsTrim l).length) := by
        rw [h]
        decide
      simp [specNonEmptyTrimmedLines, h, hlen, ih]
    · have hlen : 0 < (jsTrim l).length := (string_length_pos_iff _).mpr h
      simp [specNonEmptyTrimmedLines, h, hlen, ih]

/-- C5: for each bulk-import handler (servers and domains), a submitted
request carries exactly the non-empty trimmed lines of the textarea input in
original order (the spec-side list), that list is a subsequence of the
trimmed lines (order preserved), and an input with no non-empty line is
rejected with the page-specific form error, issuing no request. -/
theorem bulk_import_lines_spec :
    (∀ text result, handleBulkImport text = Except.ok result →
      result = specNonEmptyTrimmedLines (jsSplitLines text) ∧ result ≠ []) ∧
    (∀ text, handleBulkImport text = Except.error "Please enter at least one server" ↔
      specNonEmptyTrimmedLines (jsSplitLines text) = []) ∧
    (∀ text, List.Sublist (bulkImportServers text) ((jsSplitLines text).map jsTrim)) ∧
    (∀ text result, handleBulkCreate text = Except.ok result →
      result = specNonEmptyTrimmedLines (jsSplitLines text) ∧ result ≠ []) ∧
    (∀ text, handleBulkCreate text = Except.error "Please enter at least one domain" ↔
      specNonEmptyTrimmedLines (jsSplitLines text) = []) := by
  have hserv : ∀ text, bulkImportServers text =
      specNonEmptyTrimmedLines (jsSplitLines text) :=
    fun text => map_filter_eq_spec (jsSplitLines text)
  have hdom : ∀ text, bulkCreateDomains text =
      specNonEmptyTrimmedLines (jsSplitLines text) :=
    fun text => map_filter_eq_spec (jsSplitLines text)
  refine ⟨fun text result hok => ?_, fun text => ?_,
    fun text => List.filter_sublist _, fun text result hok => ?_, fun text => ?_⟩
  · by_cases h : (bulkImportServers text).length = 0
    · simp [handleBulkImport, h] at hok
    · simp only [handleBulkImport, if_neg h, Except.ok.injEq] at hok
      refine ⟨hok ▸ (hserv text).symm ▸ rfl, fun hnil => ?_⟩
      · exact h (by rw [hok, hnil]; rfl)
  · constructor
    · intro herr
      by_cases h : (bulkImportServers text).length = 0
      · rw [← hserv text]
        exact List.length_eq_zero.mp h
      · simp [handleBulkImport, h] at herr
    · intro hspec
      have h : (bulkImportServers text).length = 0 := by
        rw [hserv text, hspec]
        rfl
      simp [handleBulkImport, h]
  · by_cases h : (bulkCreateDomains text).length = 0
    · simp [handleBulkCreate, h] at hok
    · simp only [handleBulkCreate, if_neg h, Except.ok.injEq] at hok
      refine ⟨hok ▸ (hdom text).symm ▸ rfl, fun hnil => ?_⟩
      · exact h (by rw [hok, hnil]; rfl)
  · constructor
    · intro herr
      by_cases h : (bulkCreateDomains text).length = 0
      · rw [← hdom text]
        exact List.length_eq_zero.mp h
      · simp [handleBulkCreate, h] at herr
    · intro hspec
      have h : (bulkCreateDomains text).length = 0 := by
        rw [hdom text, hspec]
        rfl
      simp [handleBulkCreate, h]

/-- Witness for bulk_import_lines_spec: the input with lines " alpha ",
empty, "beta " submits exactly ["alpha", "beta"], and a whitespace-only
input is rejected with the form error. -/
theorem bulk_import_lines_spec_witness :
    (["alpha", "beta"] : List String) =
      specNonEmptyTrimmedLines (jsSplitLines " alpha \n\nbeta ") ∧
    (handleBulkImport "  \n \n" = Except.error "Please enter at least one server" ↔
      specNonEmptyTrimmedLines (jsSplitLines "  \n \n") = []) :=
  ⟨(bulk_import_lines_spec.1 " alpha \n\nbeta " ["alpha", "beta"] rfl).1,
   bulk_import_lines_spec.2.1 "  \n \n"⟩

/-- C8: a change event reaching a page subscription only triggers the full
re-read; two events on the subscribed channel with any actions and payloads
produce identical view states, and the resulting state is exactly the one
computed from the re-read API responses, for both the Dashboard and the
ServersPage — the session never writes state derived from the event
itself. -/
theorem event_triggers_reread_only :
    (∀ (api : DashboardApi) (c : String) (v : DashboardView) (m₁ m₂ : WSMessage),
      m₁.channel = c → m₂.channel = c →
      dashboardHandleEvent api c v m₁ = dashboardHandleEvent api c v m₂) ∧
    (∀ (api : DashboardApi) (c : String) (v : DashboardView) (m : WSMessage),
      m.channel = c → dashboardHandleEvent api c v m = loadData api v) ∧
    (∀ (api : ServersApi) (c : String) (v : ServersView) (m₁ m₂ : WSMessage),
      m₁.channel = c → m₂.channel = c →
      serversHandleEvent api c v m₁ = serversHandleEvent api c v m₂) ∧
    (∀ (api : ServersApi) (c : String) (v : ServersView) (m : WSMessage),
      m.channel = c → serversHandleEvent api c v m = loadServers api v) := by
  have hd : ∀ (api : DashboardApi) (c : String) (v : DashboardView) (m : WSMessage),
      m.channel = c → dashboardHandleEvent api c v m = loadData api v := by
    intro api c v m h
    simp [dashboardHandleEvent, realtimeUpdateHandler, h]
  have hs : ∀ (api : ServersApi) (c : String) (v : ServersView) (m : WSMessage),
      m.channel = c → serversHandleEvent api c v m = loadServers api v := by
    intro api c v m h
    simp [serversHandleEvent, realtimeUpdateHandler, h]
  exact ⟨fun api c v m₁ m₂ h1 h2 => (hd api c v m₁ h1).trans (hd api c v m₂ h2).symm,
    hd,
    fun api c v m₁ m₂ h1 h2 => (hs api c v m₁ h1).trans (hs api c v m₂ h2).symm,
    hs⟩

/-- Witness for event_triggers_reread_only: a created event and a deleted
event with different payloads on the servers channel drive the Dashboard to
the same state, and that state is the plain re-read result. -/
theorem event_triggers_reread_only_witness :
    dashboardHandleEvent ⟨"stats", ["srv"], ["dom"]⟩ "servers"
        ⟨none, [], [], true⟩ ⟨"servers", ⟨"created", "id:1"⟩⟩ =
      dashboardHandleEvent ⟨"stats", ["srv"], ["dom"]⟩ "servers"
        ⟨none, [], [], true⟩ ⟨"servers", ⟨"deleted", "id:99"⟩⟩ ∧
    dashboardHandleEvent ⟨"stats", ["srv"], ["dom"]⟩ "servers"
        ⟨none, [], [], true⟩ ⟨"servers", ⟨"created", "id:1"⟩⟩ =
      loadData ⟨"stats", ["srv"], ["dom"]⟩ ⟨none, [], [], true⟩ :=
  ⟨event_triggers_reread_only.1 ⟨"stats", ["srv"], ["dom"]⟩ "servers"
      ⟨none, [], [], true⟩ ⟨"servers", ⟨"created", "id:1"⟩⟩
      ⟨"servers", ⟨"deleted", "id:99"⟩⟩ rfl rfl,
   event_triggers_reread_only.2.1 ⟨"stats", ["srv"], ["dom"]⟩ "servers"
      ⟨none, [], [], true⟩ ⟨"servers", ⟨"created", "id:1"⟩⟩ rfl⟩

/-- Helper: closed form of running n serialized assign calls against one
server row — the counter saturates at max_domains, successes are
min n (max - current) and the rest fail. -/
theorem runAssigns_closed (n : Nat) : ∀ s : SrvCap, s.current ≤ s.maxDomains →
    runAssigns n s =
      (⟨min (s.current + n) s.maxDomains, s.maxDomains⟩,
       min n (s.maxDomains - s.current),
       n - (s.maxDomains - s.current)) := by
  induction n with
  | zero =>
    intro s hs
    obtain ⟨cur, maxd⟩ := s
    simp only at hs
    simp only [runAssigns, Prod.mk.injEq, SrvCap.mk.injEq, and_true]
    refine ⟨?_, ?_, ?_⟩ <;> omega
  | succ n ih =>
    intro s hs
    obtain ⟨cur, maxd⟩ := s
    simp only at hs
    by_cases h : cur < maxd
    · have ihs := ih ⟨cur + 1, maxd⟩ (by simp only; omega)
      simp only [runAssigns, assignStep, if_pos h, ihs]
      simp only [Prod.mk.injEq, SrvCap.mk.injEq, and_true]
      refine ⟨?_, ?_, ?_⟩ <;> simp only at * <;> omega
    · have ihs := ih ⟨cur, maxd⟩ hs
      simp only [runAssigns, assignStep, if_neg h, ihs]
      simp only [Prod.mk.injEq, SrvCap.mk.injEq, and_true]
      refine ⟨?_, ?_, ?_⟩ <;> simp only at * <;> omega

/-- C9: issuing N assign calls against a server with remaining capacity
R = max_domains - current_domains, where N exceeds R, yields exactly R
successes and N - R ServerAtCapacity failures, and the final counter equals
max_domains — no overflow and no lost update. Each call is one atomic
row-locked transaction, so every concurrent execution of the N identical
calls is equivalent to the serial run modelled by runAssigns. -/
theorem concurrent_assign_capacity (n : Nat) (s : SrvCap)
    (hinv : s.current ≤ s.maxDomains)
    (hover : s.maxDomains - s.current < n) :
    runAssigns n s =
      (⟨s.maxDomains, s.maxDomains⟩,
       s.maxDomains - s.current,
       n - (s.maxDomains - s.current)) := by
  rw [runAssigns_closed n s hinv]
  simp only [Prod.mk.injEq, SrvCap.mk.injEq, and_true]
  refine ⟨?_, ?_⟩ <;> omega

/-- Witness for concurrent_assign_capacity: five assign calls against a
server holding 3 of 5 slots give 2 successes, 3 ServerAtCapacity failures
and a full server. -/
theorem concurrent_assign_capacity_witness :
    runAssigns 5 ⟨3, 5⟩ = (⟨5, 5⟩, 2, 3) :=
  concurrent_assign_capacity 5 ⟨3, 5⟩ (by decide) (by decide)

end Chort
